import Mathlib

/-!
Shallow embedding of the response-normalization, validation and filtering
logic of a conversational-analytics backend (FastAPI glue over a remote
data-agent service).  Python dicts are modelled as ordered association
lists over a JSON value type; duck-typed attribute probing (hasattr plus
truthiness) is modelled with Option fields where some means the attribute
is present and truthy; code that may raise returns Except, with Python
try/except translated to a match on the error.  External library calls
(the altair chart translation, the remote RPCs, the HTTP round trip of
token introspection) are parameters of the embedded functions.
-/

namespace ConvApi

/-- JSON-like values, the result type of the response normalizer.  Python
dicts are ordered association lists. -/
inductive JVal where
  | null : JVal
  | str : String → JVal
  | num : Int → JVal
  | bool : Bool → JVal
  | arr : List JVal → JVal
  | obj : List (String × JVal) → JVal

/-- Python d.get(k): value of the first entry with key k, if any. -/
def dictGet (d : List (String × JVal)) (k : String) : Option JVal :=
  (d.find? (fun p => p.1 == k)).map (fun p => p.2)

/-- Python d[k] = v: replace the value at an existing key in place, or
append a new entry at the end. -/
def dictSet (d : List (String × JVal)) (k : String) (v : JVal) : List (String × JVal) :=
  if d.any (fun p => p.1 == k) then
    d.map (fun p => if p.1 == k then (p.1, v) else p)
  else d ++ [(k, v)]

/-- Model of message.user_message in chat.py: the raw text. -/
structure UserMessage where
  text : String

/-- Model of system_message.text: the list of text parts. -/
structure TextContent where
  parts : List String

/-- Model of schema_resp.query in format_schema_response. -/
structure SchemaQuery where
  question : String

/-- Model of a field of a datasource schema, as read by format_datasource
and format_data_response; description is optional with getattr default. -/
structure DsField where
  name : String
  type : String
  description : Option String
  mode : String

/-- Model of datasource.schema and data_resp.result.schema. -/
structure DsSchema where
  fields : List DsField

structure LookerExploreReference where
  looker_instance_uri : String
  lookml_model : String
  explore : String

structure BigQueryTableReference where
  project_id : String
  dataset_id : String
  table_id : String

/-- Duck-typed datasource object probed by format_datasource in chat.py:
each Option field is some exactly when the attribute is present. -/
structure Datasource where
  studio_datasource_id : Option String
  looker_explore_reference : Option LookerExploreReference
  bigquery_table_reference : Option BigQueryTableReference
  schema : Option DsSchema

/-- Embedding of format_datasource (chat.py lines 186-213). -/
def format_datasource (d : Datasource) : List (String × JVal) :=
  let ds_info :=
    match d.studio_datasource_id with
    | some sid => [("source_name", JVal.str sid)]
    | none =>
      match d.looker_explore_reference with
      | some ref =>
          [("source_name", JVal.str ("lookmlModel: " ++ ref.lookml_model ++ ", explore: "
            ++ ref.explore ++ ", lookerInstanceUri: " ++ ref.looker_instance_uri))]
      | none =>
        match d.bigquery_table_reference with
        | some ref =>
            [("source_name", JVal.str (ref.project_id ++ "." ++ ref.dataset_id ++ "."
              ++ ref.table_id))]
        | none => [("source_name", JVal.str "Unknown")]
  match d.schema with
  | some s =>
      ds_info ++ [("schema", JVal.obj [("fields", JVal.arr (s.fields.map (fun f =>
        JVal.obj [("name", JVal.str f.name), ("type", JVal.str f.type),
          ("description", JVal.str (f.description.getD "-")), ("mode", JVal.str f.mode)])))])]
  | none => ds_info

/-- Model of system_message.schema: a pending query or a resolved result. -/
structure SchemaResult where
  datasources : List Datasource

structure SchemaResp where
  query : Option SchemaQuery
  result : Option SchemaResult

/-- Embedding of format_schema_response (chat.py lines 100-116).  The
returned dict always starts with the entry type = "schema"; a pending
query only adds a nested query object and does NOT change the type. -/
def format_schema_response (s : SchemaResp) : List (String × JVal) :=
  let result := [("type", JVal.str "schema")]
  match s.query with
  | some q => result ++ [("query", JVal.obj [("question", JVal.str q.question)])]
  | none =>
    match s.result with
    | some r =>
        result ++ [("status", JVal.str "Schema resolved"),
          ("datasources", JVal.arr (r.datasources.map (fun d => JVal.obj (format_datasource d))))]
    | none => result

/-- Model of data_resp.query. -/
structure DataQuery where
  name : String
  question : String
  datasources : List Datasource

/-- A row of tabular data: a Python dict from field name to cell value. -/
abbrev Row := List (String × JVal)

/-- Model of data_resp.result: a schema plus row-oriented data. -/
structure DataResult where
  schema : DsSchema
  data : List Row

structure DataResp where
  query : Option DataQuery
  generated_sql : Option String
  result : Option DataResult

/-- One inner step of the pivot loop in format_data_response
(chat.py lines 141-145): if field not in data then data[field] = [];
data[field].append(v). -/
def addCell (data : List (String × List (Option JVal))) (f : String) (v : Option JVal) :
    List (String × List (Option JVal)) :=
  if data.any (fun p => p.1 == f) then
    data.map (fun p => if p.1 == f then (p.1, p.2 ++ [v]) else p)
  else data ++ [(f, [v])]

/-- One row of the pivot loop: the inner for-loop over all fields. -/
def pivotRow (acc : List (String × List (Option JVal))) (fields : List String) (row : Row) :
    List (String × List (Option JVal)) :=
  fields.foldl (fun d fl => addCell d fl (dictGet row fl)) acc

/-- The row-to-column pivot of format_data_response: for row in data, for
field in fields, append row.get(field) to the column of that field.  A
missing cell contributes the explicit marker none (Python None). -/
def pivot (fields : List String) (rows : List Row) : List (String × List (Option JVal)) :=
  rows.foldl (fun d row => pivotRow d fields row) []

/-- Lookup of a column in the pivoted dict. -/
def colLookup (data : List (String × List (Option JVal))) (f : String) :
    Option (List (Option JVal)) :=
  (data.find? (fun p => p.1 == f)).map (fun p => p.2)

/-- JSON serialization of an optional cell: Python None becomes null. -/
def optToJVal : Option JVal → JVal
  | some v => v
  | none => JVal.null

/-- Embedding of format_data_response (chat.py lines 118-152). -/
def format_data_response (d : DataResp) : List (String × JVal) :=
  let result : List (String × JVal) := []
  let result := match d.query with
    | some q =>
        result ++ [("query", JVal.obj
          [("name", JVal.str q.name), ("question", JVal.str q.question),
           ("datasources", JVal.arr (q.datasources.map (fun ds => JVal.obj (format_datasource ds))))])]
    | none => result
  let result := match d.generated_sql with
    | some s => result ++ [("generated_sql", JVal.str s)]
    | none => result
  match d.result with
  | some r =>
    let fields := r.schema.fields.map (fun f => f.name)
    let data := pivot fields r.data
    result ++ [("data_retrieved", JVal.bool true),
      ("data", JVal.obj [("fields", JVal.arr (fields.map JVal.str)),
        ("columns", JVal.obj (data.map (fun p => (p.1, JVal.arr (p.2.map optToJVal)))))])]
  | none => result

structure ChartQuery where
  instructions : String

structure ChartResult where
  vega_config : JVal

structure ChartResp where
  query : Option ChartQuery
  result : Option ChartResult

/-- Embedding of process_chart (chart_utils.py lines 17-31).  The altair
translation (Chart.from_dict plus to_json), which may raise, is an
arbitrary parameter returning Except; the catch-all except returns None,
so process_chart itself never raises. -/
def process_chart (translate : JVal → Except String (List (String × JVal))) (vega_config : JVal) :
    Option (List (String × JVal)) :=
  match translate vega_config with
  | Except.ok spec => some spec
  | Except.error _ => none

/-- Embedding of format_chart_response (chat.py lines 154-184).  Since
process_chart is total, the outer try/except never fires; a failed (or
falsy) chart spec yields the error entry in place of vega_config. -/
def format_chart_response (translate : JVal → Except String (List (String × JVal)))
    (c : ChartResp) : List (String × JVal) :=
  let result := [("type", JVal.str "chart")]
  let result := match c.query with
    | some q => result ++ [("instructions", JVal.str q.instructions)]
    | none => result
  match c.result with
  | some r =>
    match process_chart translate r.vega_config with
    | some spec =>
        if spec.isEmpty then result ++ [("error", JVal.str "Failed to process chart specification")]
        else result ++ [("vega_config", JVal.obj spec)]
    | none => result ++ [("error", JVal.str "Failed to process chart specification")]
  | none => result

/-- Duck-typed system message probed by format_system_message: exactly one
of the four payload attributes is expected, probed in a fixed order. -/
structure SystemMessage where
  text : Option TextContent
  schema : Option SchemaResp
  data : Option DataResp
  chart : Option ChartResp

/-- Model of the Python str() rendering of a system message in the unknown
branch; the exact text comes from the external protobuf library and no
claim depends on it, so a structural rendering is used. -/
def sysRepr (sm : SystemMessage) : String :=
  String.join [if sm.text.isSome then "text " else "",
    if sm.schema.isSome then "schema " else "",
    if sm.data.isSome then "data " else "",
    if sm.chart.isSome then "chart " else ""]

/-- Embedding of format_system_message (chat.py lines 68-98).  The
timestamp is already in ISO form (isoformat applied by the caller model). -/
def format_system_message (translate : JVal → Except String (List (String × JVal)))
    (sm : SystemMessage) (timestamp : Option String) : List (String × JVal) :=
  let content :=
    match sm.text with
    | some t => [("type", JVal.str "text"), ("text", JVal.str (String.join t.parts))]
    | none =>
      match sm.schema with
      | some s => dictSet (format_schema_response s) "type" (JVal.str "schema")
      | none =>
        match sm.data with
        | some d => dictSet (format_data_response d) "type" (JVal.str "data")
        | none =>
          match sm.chart with
          | some c => dictSet (format_chart_response translate c) "type" (JVal.str "chart")
          | none => [("type", JVal.str "unknown"), ("raw", JVal.str (sysRepr sm))]
  [("type", JVal.str "assistant"),
   ("message_type", (dictGet content "type").getD (JVal.str "unknown")),
   ("content", JVal.obj content),
   ("timestamp", match timestamp with | some ts => JVal.str ts | none => JVal.null)]

/-- Duck-typed reply object of the conversational service, probed by
format_message_response: a populated user message, a system message, a
single level of message wrapping, and an optional creation timestamp
(already in ISO form). -/
inductive Message where
  | mk : Option UserMessage → Option SystemMessage → Option Message → Option String → Message

def Message.user_message : Message → Option UserMessage
  | .mk u _ _ _ => u

def Message.system_message : Message → Option SystemMessage
  | .mk _ s _ _ => s

def Message.message : Message → Option Message
  | .mk _ _ m _ => m

def Message.create_time : Message → Option String
  | .mk _ _ _ t => t

/-- Model of the Python str() rendering of a whole reply in the unknown
branch; no claim depends on its exact text. -/
def msgRepr : Message → String
  | .mk _ _ _ _ => "unrecognized message"

/-- Embedding of format_message_response (chat.py lines 49-66): first
match wins over (populated user message, system message, wrapper,
unknown). -/
def format_message_response (translate : JVal → Except String (List (String × JVal))) :
    Message → List (String × JVal)
  | Message.mk (some u) _ _ ct =>
      [("type", JVal.str "user"),
       ("content", JVal.obj [("text", JVal.str u.text)]),
       ("timestamp", match ct with | some t => JVal.str t | none => JVal.null)]
  | Message.mk none (some sm) _ ct => format_system_message translate sm ct
  | Message.mk none none (some inner) _ => format_message_response translate inner
  | Message.mk none none none ct =>
      [("type", JVal.str "unknown"),
       ("content", JVal.obj [("raw", JVal.str (msgRepr (Message.mk none none none ct)))]),
       ("timestamp", JVal.null)]

/-- Sort key of get_messages (chat.py line 364): x.get("timestamp") or "".
A missing key, a null and an empty string all collapse to the empty
string; a nonempty ISO timestamp string is used as is.  Formatted
messages only ever carry a string or null there; other value kinds are
mapped to the empty string to keep the function total. -/
def sortKey (x : List (String × JVal)) : String :=
  match dictGet x "timestamp" with
  | some (JVal.str s) => s
  | _ => ""

/-- The comparison used by the Python ascending sort in get_messages. -/
def msgOrder (a b : List (String × JVal)) : Prop := sortKey a ≤ sortKey b

instance : DecidableRel msgOrder := fun a b =>
  inferInstanceAs (Decidable (sortKey a ≤ sortKey b))

instance : IsTotal (List (String × JVal)) msgOrder :=
  ⟨fun a b => le_total (sortKey a) (sortKey b)⟩

instance : IsTrans (List (String × JVal)) msgOrder :=
  ⟨fun _ _ _ h₁ h₂ => le_trans h₁ h₂⟩

/-- Embedding of the sort in get_messages (chat.py lines 363-364): a
stable ascending sort by sortKey, modelled by insertion sort. -/
def sortMessages (msgs : List (List (String × JVal))) : List (List (String × JVal)) :=
  List.insertionSort msgOrder msgs

/-- A formatted message lacks a timestamp when the timestamp entry is not
a string (it is null for messages without a creation time). -/
def lacksTimestamp (x : List (String × JVal)) : Bool :=
  match dictGet x "timestamp" with
  | some (JVal.str _) => false
  | _ => true

/-- Python exceptions relevant to the request handlers. -/
inductive PyExc where
  | httpException (status : Nat) (detail : String)
  | googleApiCallError (msg : String)
  | otherError (msg : String)
deriving DecidableEq

/-- Python str() of an exception: Starlette renders an HTTPException as
status followed by detail. -/
def strOfExc : PyExc → String
  | PyExc.httpException st d => toString st ++ ": " ++ d
  | PyExc.googleApiCallError m => m
  | PyExc.otherError m => m

/-- Proto DatasourceReferences: bq.table_references and
looker.explore_references lists. -/
structure DatasourceReferences where
  bq_table_references : List BigQueryTableReference
  looker_explore_references : List LookerExploreReference

/-- Proto Context: the published context of a data agent. -/
structure Context where
  datasource_references : DatasourceReferences
  system_instruction : String

structure DataAnalyticsAgent where
  published_context : Context

/-- Proto DataAgent as constructed by agents.py. -/
structure DataAgent where
  name : String
  display_name : String
  description : String
  data_analytics_agent : DataAnalyticsAgent

/-- Body of the agent-create request (Pydantic DataAgentRequest,
agents.py lines 39-49): the datasource fields are optional strings. -/
structure DataAgentRequest where
  display_name : String
  description : String
  system_instruction : String
  data_source : String
  bq_project_id : Option String
  bq_dataset_id : Option String
  bq_table_id : Option String
  looker_instance_url : Option String
  looker_model : Option String
  looker_explore : Option String

/-- Python truthiness of an optional string: None and the empty string
are falsy, as tested by the all(...) validation in create_agent. -/
def truthyStr : Option String → Bool
  | some s => !(s == "")
  | none => false

/-- The datasource validation and construction of create_agent
(agents.py lines 159-182), including the two HTTPException(400) raises. -/
def build_datasource_references (r : DataAgentRequest) :
    Except PyExc DatasourceReferences :=
  if r.data_source == "BigQuery" then
    if !(truthyStr r.bq_project_id && truthyStr r.bq_dataset_id && truthyStr r.bq_table_id) then
      Except.error (PyExc.httpException 400
        "BigQuery project_id, dataset_id, and table_id are required")
    else
      Except.ok
        { bq_table_references :=
            [⟨(r.bq_project_id).getD "", (r.bq_dataset_id).getD "", (r.bq_table_id).getD ""⟩],
          looker_explore_references := [] }
  else if r.data_source == "Looker" then
    if !(truthyStr r.looker_instance_url && truthyStr r.looker_model
        && truthyStr r.looker_explore) then
      Except.error (PyExc.httpException 400
        "Looker instance URL, model, and explore are required")
    else
      Except.ok
        { bq_table_references := [],
          looker_explore_references :=
            [⟨(r.looker_instance_url).getD "", (r.looker_model).getD "",
              (r.looker_explore).getD ""⟩] }
  else
    Except.error (PyExc.httpException 400
      "Invalid data source. Must be \x27BigQuery\x27 or \x27Looker\x27")

/-- The try block of create_agent (agents.py lines 148-208): validate and
build the agent, then submit it to the remote create call (a parameter,
since the remote service is external); the generated uuid-based id and
the configured project id are parameters as well. -/
def create_agent_try (remote : DataAgent → Except PyExc DataAgent)
    (project_id agent_id : String) (r : DataAgentRequest) :
    Except PyExc (List (String × JVal)) :=
  match build_datasource_references r with
  | Except.error e => Except.error e
  | Except.ok dsrefs =>
    let agent : DataAgent :=
      { name := "projects/" ++ project_id ++ "/locations/global/dataAgents/" ++ agent_id,
        display_name := r.display_name,
        description := r.description,
        data_analytics_agent := { published_context :=
          { datasource_references := dsrefs, system_instruction := r.system_instruction } } }
    match remote agent with
    | Except.error e => Except.error e
    | Except.ok created =>
        Except.ok
          [("message", JVal.str ("Agent \x27" ++ r.display_name ++ "\x27 successfully created")),
           ("agent", JVal.obj [("name", JVal.str created.name),
             ("display_name", JVal.str created.display_name),
             ("description", JVal.str created.description)])]

/-- The whole create_agent handler (agents.py lines 145-213): the except
clauses catch GoogleAPICallError first, and then every other exception,
HTTPException included, is rewrapped as a status-500 Unexpected error. -/
def create_agent (remote : DataAgent → Except PyExc DataAgent)
    (project_id agent_id : String) (r : DataAgentRequest) :
    Except PyExc (List (String × JVal)) :=
  match create_agent_try remote project_id agent_id r with
  | Except.ok v => Except.ok v
  | Except.error (PyExc.googleApiCallError m) =>
      Except.error (PyExc.httpException 500 ("API error creating agent: " ++ m))
  | Except.error e =>
      Except.error (PyExc.httpException 500 ("Unexpected error: " ++ strOfExc e))

/-- Body of the agent-update request (Pydantic DataAgentUpdateRequest). -/
structure DataAgentUpdateRequest where
  display_name : String
  description : String
  system_instruction : String

/-- The replacement agent built by update_agent (agents.py lines 226-235):
display name, description and system instruction come from the request,
the datasource references are copied from the existing agent. -/
def build_update_agent (agent_name : String) (r : DataAgentUpdateRequest)
    (existing : DataAgent) : DataAgent :=
  { name := agent_name,
    display_name := r.display_name,
    description := r.description,
    data_analytics_agent := { published_context :=
      { datasource_references :=
          existing.data_analytics_agent.published_context.datasource_references,
        system_instruction := r.system_instruction } } }

/-- The whole update_agent handler (agents.py lines 215-256): fetch the
existing agent, submit the replacement, wrap errors like create_agent. -/
def update_agent (remote_get : String → Except PyExc DataAgent)
    (remote_update : DataAgent → Except PyExc DataAgent)
    (agent_name : String) (r : DataAgentUpdateRequest) :
    Except PyExc (List (String × JVal)) :=
  let body :=
    match remote_get agent_name with
    | Except.error e => Except.error e
    | Except.ok existing =>
      match remote_update (build_update_agent agent_name r existing) with
      | Except.error e => Except.error e
      | Except.ok updated =>
          Except.ok
            [("message", JVal.str "Agent successfully updated"),
             ("agent", JVal.obj [("name", JVal.str updated.name),
               ("display_name", JVal.str updated.display_name),
               ("description", JVal.str updated.description)])]
  match body with
  | Except.ok v => Except.ok v
  | Except.error (PyExc.googleApiCallError m) =>
      Except.error (PyExc.httpException 500 ("API error updating agent: " ++ m))
  | Except.error e =>
      Except.error (PyExc.httpException 500 ("Unexpected error: " ++ strOfExc e))

/-- Outcome of the HTTP round trip to the tokeninfo endpoint: either a
response with a status code and the aud claim of the returned JSON, or a
network-level failure (httpx.RequestError: connection error, timeout,
DNS failure). -/
inductive NetOutcome where
  | response (status : Nat) (aud : Option String)
  | requestError (msg : String)

/-- The comparison token_info.get("aud") != GOOGLE_CLIENT_ID, negated:
both sides are optional strings. -/
def audMatches (aud cid : Option String) : Bool :=
  match aud, cid with
  | some s, some c => s == c
  | none, none => true
  | _, _ => false

/-- Embedding of verify_google_token (token_verification.py lines 6-36):
a network-level failure is mapped to status 500, a non-200 response or
an audience mismatch to status 401. -/
def verify_google_token (google_client_id : Option String) (net : NetOutcome) :
    Except PyExc (Option String) :=
  match net with
  | NetOutcome.requestError _ =>
      Except.error (PyExc.httpException 500 "Failed to verify token with Google")
  | NetOutcome.response st aud =>
    if st ≠ 200 then Except.error (PyExc.httpException 401 "Invalid or expired token")
    else if !(audMatches aud google_client_id) then
      Except.error (PyExc.httpException 401 "Token was not issued for this application")
    else Except.ok aud

/-- Embedding of validate_token (auth.py lines 142-202), the verifier the
chat routes actually depend on: a network-level failure
(httpx.RequestError) is mapped to status 401, like the credential
faults; raised HTTPExceptions pass through unchanged. -/
def validate_token (google_client_id : Option String) (net : NetOutcome) :
    Except PyExc (Option String) :=
  match net with
  | NetOutcome.requestError m =>
      Except.error (PyExc.httpException 401 ("Failed to validate token: " ++ m))
  | NetOutcome.response st aud =>
    if st ≠ 200 then Except.error (PyExc.httpException 401 "Invalid token")
    else if !(audMatches aud google_client_id) then
      Except.error (PyExc.httpException 401 "Token was not issued for this application")
    else Except.ok aud

/-- Conversation as consumed by the listing filter: its resource name and
its set of associated agent identities. -/
structure Conversation where
  name : String
  agents : List String
deriving DecidableEq

/-- Python agent_name.split("/")[-1]: the trailing path segment. -/
def lastSegment (s : String) : String := (s.splitOn "/").getLastD ""

/-- Python substring membership needle in haystack, on character lists. -/
def containsSub (haystack needle : String) : Bool :=
  decide (needle.toList <:+: haystack.toList)

/-- Embedding of the filtering loop of list_conversations (chat.py lines
243-251): a conversation with a nonempty agent set is kept when the
queried name is a member, or else when the trailing path segment of the
queried name is a substring of some member. -/
def filter_conversations (agent_name : String) (convos : List Conversation) :
    List Conversation :=
  convos.filter (fun c =>
    if c.agents.isEmpty then false
    else if c.agents.contains agent_name then true
    else c.agents.any (fun a => containsSub a (lastSegment agent_name)))

/-- A concrete always-failing chart translation, standing for an altair
call on a malformed declarative chart configuration. -/
def noTranslate : JVal → Except String (List (String × JVal)) :=
  fun _ => Except.error "invalid chart configuration"

/-- A system message whose schema field carries a pending query. -/
def pendingSchemaMessage : SystemMessage :=
  { text := none,
    schema := some { query := some { question := "which tables" }, result := none },
    data := none, chart := none }

/-- A chart response whose embedded configuration will fail to translate. -/
def chartFailing : ChartResp :=
  { query := none, result := some { vega_config := JVal.null } }

/-- A reply satisfying both the populated-user-message shape and the
wrapped-message shape. -/
def msgBoth : Message :=
  Message.mk (some { text := "hi" }) none (some (Message.mk none none none none)) none

/-- Two rows over fields f1 and f2, each missing one cell. -/
def rowsEx : List Row := [[("f1", JVal.str "a")], [("f2", JVal.num 3)]]

/-- A formatted message with a timestamp and one without. -/
def tsMsg : List (String × JVal) :=
  [("type", JVal.str "assistant"), ("timestamp", JVal.str "2024-01-01T00:00:00")]

def noTsMsg : List (String × JVal) :=
  [("type", JVal.str "user"), ("timestamp", JVal.null)]

/-- An agent-create request with discriminator BigQuery whose table id is
absent. -/
def reqMissingTable : DataAgentRequest :=
  { display_name := "sales agent", description := "agent over sales",
    system_instruction := "be precise", data_source := "BigQuery",
    bq_project_id := some "proj", bq_dataset_id := some "ds", bq_table_id := none,
    looker_instance_url := none, looker_model := none, looker_explore := none }

/-- A conversation associated with one agent. -/
def convA : Conversation :=
  { name := "projects/p/locations/global/conversations/c1",
    agents := ["projects/p/locations/global/dataAgents/a1"] }

/-! ## Claim theorems -/

/-- C6 (code bug): for a BigQuery create request missing bq_table_id the
validation raises HTTPException with status 400 before any remote call
(the result does not depend on the remote parameter), but the blanket
except-Exception clause of create_agent catches that HTTPException and
rewraps it, so the client observes status 500, not 400 as the claim and
the 400 constructed by the code itself intend. -/
theorem C6_create_agent_validation_rewrapped_to_500
    (remote : DataAgent → Except PyExc DataAgent) (project_id agent_id : String) :
    build_datasource_references reqMissingTable
      = Except.error (PyExc.httpException 400
          "BigQuery project_id, dataset_id, and table_id are required")
    ∧ create_agent remote project_id agent_id reqMissingTable
      = Except.error (PyExc.httpException 500
          "Unexpected error: 400: BigQuery project_id, dataset_id, and table_id are required") :=
  ⟨rfl, rfl⟩

/-- C7 (amended): a network-level failure of the introspection round trip
is reported with status 500 by verify_google_token, but with status 401,
the credential-fault class, by validate_token in auth.py, the verifier
the chat routes actually use. -/
theorem C7_network_failure_fault_classes (cid : Option String) (m : String) :
    verify_google_token cid (NetOutcome.requestError m)
      = Except.error (PyExc.httpException 500 "Failed to verify token with Google")
    ∧ validate_token cid (NetOutcome.requestError m)
      = Except.error (PyExc.httpException 401 ("Failed to validate token: " ++ m)) :=
  ⟨rfl, rfl⟩

/-- C7 counterexample: at a concrete connection failure, validate_token
reports status 401, not a server-side 500 or 502, refuting the claim
that every token-verification call reports network failures as a
server-side fault. -/
theorem C7_counterexample :
    validate_token (some "client-id") (NetOutcome.requestError "connection timed out")
      = Except.error (PyExc.httpException 401 "Failed to validate token: connection timed out")
    ∧ (401 : Nat) ≠ 500 ∧ (401 : Nat) ≠ 502 :=
  ⟨rfl, by decide, by decide⟩

/-- C8: the replacement agent submitted by update_agent carries exactly
the datasource references fetched from the existing agent, while display
name, description and system instruction come from the request. -/
theorem C8_update_preserves_datasource (agent_name : String)
    (r : DataAgentUpdateRequest) (existing : DataAgent) :
    (build_update_agent agent_name r existing
      ).data_analytics_agent.published_context.datasource_references
      = existing.data_analytics_agent.published_context.datasource_references
    ∧ (build_update_agent agent_name r existing).display_name = r.display_name
    ∧ (build_update_agent agent_name r existing).description = r.description
    ∧ (build_update_agent agent_name r existing
      ).data_analytics_agent.published_context.system_instruction = r.system_instruction :=
  ⟨rfl, rfl, rfl, rfl⟩

/-- C4: classification is first-match-wins; a reply with a populated user
message is classified as user with content text, whatever its wrapped
message field holds. -/
theorem C4_user_rule_wins (translate : JVal → Except String (List (String × JVal)))
    (m : Message) (u : UserMessage) (inner : Message)
    (hu : m.user_message = some u) (hw : m.message = some inner) :
    dictGet (format_message_response translate m) "type" = some (JVal.str "user")
    ∧ dictGet (format_message_response translate m) "content"
      = some (JVal.obj [("text", JVal.str u.text)]) := by
  cases m with
  | mk um sm w ct =>
    have hum : um = some u := hu
    subst hum
    exact ⟨rfl, rfl⟩

/-- C4 witness at a concrete reply satisfying both shapes. -/
theorem C4_witness :
    dictGet (format_message_response noTranslate msgBoth) "type" = some (JVal.str "user")
    ∧ dictGet (format_message_response noTranslate msgBoth) "content"
      = some (JVal.obj [("text", JVal.str "hi")]) :=
  C4_user_rule_wins noTranslate msgBoth { text := "hi" }
    (Message.mk none none none none) rfl rfl

/-- C3: when the embedded chart configuration fails to translate, the
formatted chart content carries the error entry and no vega_config
entry; the formatter is a total function, so it returns normally on
every input and every failing translation. -/
theorem C3_chart_translation_degrades
    (translate : JVal → Except String (List (String × JVal)))
    (c : ChartResp) (r : ChartResult) (e : String)
    (hres : c.result = some r) (hfail : translate r.vega_config = Except.error e) :
    dictGet (format_chart_response translate c) "error"
      = some (JVal.str "Failed to process chart specification")
    ∧ dictGet (format_chart_response translate c) "vega_config" = none := by
  cases c with
  | mk q res =>
    have hres2 : res = some r := hres
    subst hres2
    cases q with
    | none => simp [format_chart_response, process_chart, hfail, dictGet]
    | some qq => simp [format_chart_response, process_chart, hfail, dictGet]

/-- C3 witness at a concrete malformed chart configuration. -/
theorem C3_witness :
    dictGet (format_chart_response noTranslate chartFailing) "error"
      = some (JVal.str "Failed to process chart specification")
    ∧ dictGet (format_chart_response noTranslate chartFailing) "vega_config" = none :=
  C3_chart_translation_degrades noTranslate chartFailing
    { vega_config := JVal.null } "invalid chart configuration" rfl rfl

/-- C1 (amended): when no earlier rule matched and the schema field is
present, a pending query yields the content object with type "schema"
and a nested query object (not type "query" with a flat question), and
a resolved result yields type "schema" with status and datasources. -/
theorem C1_schema_branch_content
    (translate : JVal → Except String (List (String × JVal)))
    (sm : SystemMessage) (ts : Option String) (s : SchemaResp)
    (htext : sm.text = none) (hschema : sm.schema = some s) :
    (∀ q, s.query = some q →
      dictGet (format_system_message translate sm ts) "content"
        = some (JVal.obj [("type", JVal.str "schema"),
            ("query", JVal.obj [("question", JVal.str q.question)])]))
    ∧ (∀ r, s.query = none → s.result = some r →
      dictGet (format_system_message translate sm ts) "content"
        = some (JVal.obj [("type", JVal.str "schema"), ("status", JVal.str "Schema resolved"),
            ("datasources", JVal.arr (r.datasources.map (fun d =>
              JVal.obj (format_datasource d))))])) := by
  cases sm with
  | mk tx sc dt ch =>
    have htx : tx = none := htext
    have hsc : sc = some s := hschema
    subst htx
    subst hsc
    constructor
    · intro q hq
      cases s with
      | mk sq sr =>
        have hsq : sq = some q := hq
        subst hsq
        simp [format_system_message, format_schema_response, dictSet, dictGet]
    · intro r hq hr
      cases s with
      | mk sq sr =>
        have hsq : sq = none := hq
        have hsr : sr = some r := hr
        subst hsq
        subst hsr
        simp [format_system_message, format_schema_response, dictSet, dictGet]

/-- C1 witness at a concrete pending query. -/
theorem C1_witness :
    dictGet (format_system_message noTranslate pendingSchemaMessage none) "content"
      = some (JVal.obj [("type", JVal.str "schema"),
          ("query", JVal.obj [("question", JVal.str "which tables")])]) :=
  (C1_schema_branch_content noTranslate pendingSchemaMessage none
    { query := some { question := "which tables" }, result := none } rfl rfl).1
    { question := "which tables" } rfl

/-- C1 counterexample: for a pending query the content has type "schema"
with a nested query object, not the claimed flat object with type
"query" and a question entry. -/
theorem C1_counterexample :
    dictGet (format_system_message noTranslate pendingSchemaMessage none) "content"
      = some (JVal.obj [("type", JVal.str "schema"),
          ("query", JVal.obj [("question", JVal.str "which tables")])])
    ∧ dictGet (format_system_message noTranslate pendingSchemaMessage none) "content"
      ≠ some (JVal.obj [("type", JVal.str "query"),
          ("question", JVal.str "which tables")]) := by
  constructor
  · rfl
  · rw [show dictGet (format_system_message noTranslate pendingSchemaMessage none) "content"
      = some (JVal.obj [("type", JVal.str "schema"),
          ("query", JVal.obj [("question", JVal.str "which tables")])]) from rfl]
    simp

/-- C9: a conversation from the listed collection is kept by the filter
exactly when the queried agent name is a member of its agent set, or the
trailing path segment of the queried name is a substring of some member. -/
theorem C9_membership (agent_name : String) (convos : List Conversation)
    (c : Conversation) (hc : c ∈ convos) :
    c ∈ filter_conversations agent_name convos
      ↔ (agent_name ∈ c.agents
         ∨ ∃ a ∈ c.agents, (lastSegment agent_name).toList <:+: a.toList) := by
  unfold filter_conversations
  rw [List.mem_filter]
  simp only [hc, true_and]
  by_cases hemp : c.agents.isEmpty
  · have hnil : c.agents = [] := List.isEmpty_iff.mp hemp
    simp [hemp, hnil]
  · by_cases hcont : c.agents.contains agent_name
    · have hmem : agent_name ∈ c.agents := List.elem_iff.mp hcont
      simp [hemp, hcont, hmem]
    · have hnmem : agent_name ∉ c.agents := fun hm => hcont (List.elem_iff.mpr hm)
      simp [hemp, hcont, hnmem, containsSub, List.any_eq_true]

/-- C9 witness at a concrete conversation and agent name. -/
theorem C9_witness :
    convA ∈ filter_conversations "projects/p/locations/global/dataAgents/a1" [convA]
      ↔ ("projects/p/locations/global/dataAgents/a1" ∈ convA.agents
         ∨ ∃ a ∈ convA.agents,
             (lastSegment "projects/p/locations/global/dataAgents/a1").toList <:+: a.toList) :=
  C9_membership "projects/p/locations/global/dataAgents/a1" [convA] convA (by simp)

/-- C10: the filtering loop emits each conversation at most once per
input occurrence (the two rules are branches of one if/elif), so a
duplicate-free input yields a duplicate-free output. -/
theorem C10_no_duplicate_emission (agent_name : String) (convos : List Conversation) :
    (∀ c, (filter_conversations agent_name convos).count c ≤ convos.count c)
    ∧ (convos.Nodup → (filter_conversations agent_name convos).Nodup) := by
  constructor
  · intro c
    exact (List.filter_sublist convos).count_le c
  · intro h
    exact h.filter _

/-- C10 witness at a concrete duplicate-free input. -/
theorem C10_witness :
    (filter_conversations "projects/p/locations/global/dataAgents/a1" [convA]).Nodup :=
  (C10_no_duplicate_emission "projects/p/locations/global/dataAgents/a1" [convA]).2
    (by simp)

/-- The empty string is the least string. -/
theorem empty_string_le (s : String) : ("" : String) ≤ s := by
  rw [String.le_iff_toList_le]
  exact List.nil_le

/-- A message lacking a timestamp has the empty sort key. -/
theorem sortKey_eq_empty_of_lacks (x : List (String × JVal))
    (hx : lacksTimestamp x = true) : sortKey x = "" := by
  unfold sortKey
  unfold lacksTimestamp at hx
  cases hg : dictGet x "timestamp" with
  | none => rfl
  | some v =>
    cases v with
    | null => rfl
    | str s => rw [hg] at hx; simp at hx
    | num n => rfl
    | bool b => rfl
    | arr l => rfl
    | obj o => rfl

/-- Conversely, when every present timestamp is nonempty, an empty sort
key means the message lacks a timestamp. -/
theorem lacks_of_sortKey_empty (x : List (String × JVal))
    (hpres : ∀ s, dictGet x "timestamp" = some (JVal.str s) → s ≠ "")
    (hk : sortKey x = "") : lacksTimestamp x = true := by
  unfold lacksTimestamp
  cases hg : dictGet x "timestamp" with
  | none => rfl
  | some v =>
    cases v with
    | null => rfl
    | str s =>
      exfalso
      apply hpres s hg
      unfold sortKey at hk
      rw [hg] at hk
      exact hk
    | num n => rfl
    | bool b => rfl
    | arr l => rfl
    | obj o => rfl

/-- C5: for any mix of present and absent timestamps (ISO timestamps are
nonempty strings), the sort of get_messages returns a permutation of its
input, ascending in the sort key, with every message lacking a
timestamp placed before every message carrying one. -/
theorem C5_message_sort (msgs : List (List (String × JVal)))
    (h : ∀ x ∈ msgs, ∀ s, dictGet x "timestamp" = some (JVal.str s) → s ≠ "") :
    (sortMessages msgs).Perm msgs
    ∧ (sortMessages msgs).Sorted msgOrder
    ∧ (sortMessages msgs).Pairwise
        (fun a b => lacksTimestamp b = true → lacksTimestamp a = true) := by
  refine ⟨List.perm_insertionSort msgOrder msgs, List.sorted_insertionSort msgOrder msgs, ?_⟩
  have hs : (sortMessages msgs).Pairwise msgOrder :=
    List.sorted_insertionSort msgOrder msgs
  refine List.Pairwise.imp_of_mem ?_ hs
  intro a b ha hb hab hlb
  have hkb : sortKey b = "" := sortKey_eq_empty_of_lacks b hlb
  have hka : sortKey a = "" := by
    have h1 : sortKey a ≤ "" := hkb ▸ hab
    exact le_antisymm h1 (empty_string_le (sortKey a))
  have hamem : a ∈ msgs := by
    have := (List.mem_insertionSort msgOrder).mp ha
    exact this
  exact lacks_of_sortKey_empty a (h a hamem) hka

/-- C5 witness: a two-element list with one timestamped and one
timestamp-free message. -/
theorem C5_witness :
    (sortMessages [tsMsg, noTsMsg]).Perm [tsMsg, noTsMsg]
    ∧ (sortMessages [tsMsg, noTsMsg]).Sorted msgOrder
    ∧ (sortMessages [tsMsg, noTsMsg]).Pairwise
        (fun a b => lacksTimestamp b = true → lacksTimestamp a = true) :=
  C5_message_sort [tsMsg, noTsMsg] (by
    intro x hx s hdg
    rcases List.mem_cons.mp hx with hx1 | hx2
    · subst hx1
      rw [show dictGet tsMsg "timestamp"
        = some (JVal.str "2024-01-01T00:00:00") from rfl] at hdg
      simp at hdg
      subst hdg
      simp
    · have hx3 : x = noTsMsg := by simpa using hx2
      subst hx3
      rw [show dictGet noTsMsg "timestamp" = some JVal.null from rfl] at hdg
      simp at hdg)

/-- Unfolding of the inner loop over the field list. -/
theorem pivotRow_cons (d : List (String × List (Option JVal))) (fl : String)
    (rest : List String) (row : Row) :
    pivotRow d (fl :: rest) row = pivotRow (addCell d fl (dictGet row fl)) rest row := rfl

/-- Lookup at a matching head entry. -/
theorem colLookup_cons_pos (p : String × List (Option JVal))
    (t : List (String × List (Option JVal))) (g : String) (h : (p.1 == g) = true) :
    colLookup (p :: t) g = some p.2 := by
  simp [colLookup, List.find?_cons, h]

/-- Lookup skips a non-matching head entry. -/
theorem colLookup_cons_neg (p : String × List (Option JVal))
    (t : List (String × List (Option JVal))) (g : String) (h : (p.1 == g) = false) :
    colLookup (p :: t) g = colLookup t g := by
  simp [colLookup, List.find?_cons, h]

/-- Dict lookup at a matching head entry. -/
theorem dictGet_cons_pos (p : String × JVal) (t : List (String × JVal)) (g : String)
    (h : (p.1 == g) = true) : dictGet (p :: t) g = some p.2 := by
  simp [dictGet, List.find?_cons, h]

/-- Dict lookup skips a non-matching head entry. -/
theorem dictGet_cons_neg (p : String × JVal) (t : List (String × JVal)) (g : String)
    (h : (p.1 == g) = false) : dictGet (p :: t) g = dictGet t g := by
  simp [dictGet, List.find?_cons, h]

/-- Updating the column of f leaves every other column unchanged. -/
theorem colLookup_map_upd_ne (d : List (String × List (Option JVal))) (f g : String)
    (v : Option JVal) (hne : g ≠ f) :
    colLookup (d.map (fun p => if p.1 == f then (p.1, p.2 ++ [v]) else p)) g
      = colLookup d g := by
  induction d with
  | nil => rfl
  | cons p t ih =>
    rcases p with ⟨k, vs0⟩
    rw [List.map_cons]
    by_cases hp : k = f
    · have hkf : (k == f) = true := beq_iff_eq.mpr hp
      have hkg : (k == g) = false := by
        rw [beq_eq_false_iff_ne, hp]
        exact fun hh => hne hh.symm
      rw [if_pos hkf]
      rw [colLookup_cons_neg _ _ _ hkg, colLookup_cons_neg _ _ _ hkg]
      exact ih
    · have hkf : (k == f) = false := by rw [beq_eq_false_iff_ne]; exact hp
      rw [if_neg (show ¬ ((k == f) = true) by simp [hkf])]
      by_cases hkg : k = g
      · have hg2 : (k == g) = true := beq_iff_eq.mpr hkg
        rw [colLookup_cons_pos _ _ _ hg2, colLookup_cons_pos _ _ _ hg2]
      · have hg2 : (k == g) = false := by rw [beq_eq_false_iff_ne]; exact hkg
        rw [colLookup_cons_neg _ _ _ hg2, colLookup_cons_neg _ _ _ hg2]
        exact ih

/-- Updating the column of a key that is found appends the new cell. -/
theorem colLookup_map_upd_self (d : List (String × List (Option JVal))) (f : String)
    (v : Option JVal) (vs : List (Option JVal)) (hf : colLookup d f = some vs) :
    colLookup (d.map (fun p => if p.1 == f then (p.1, p.2 ++ [v]) else p)) f
      = some (vs ++ [v]) := by
  induction d with
  | nil => simp [colLookup] at hf
  | cons p t ih =>
    rcases p with ⟨k, vs0⟩
    rw [List.map_cons]
    by_cases hp : k = f
    · have hkf : (k == f) = true := beq_iff_eq.mpr hp
      rw [if_pos hkf]
      rw [colLookup_cons_pos _ _ _ hkf] at hf
      rw [colLookup_cons_pos _ _ _ hkf]
      have hv : vs0 = vs := by injection hf
      rw [hv]
    · have hkf : (k == f) = false := by rw [beq_eq_false_iff_ne]; exact hp
      rw [if_neg (show ¬ ((k == f) = true) by simp [hkf])]
      rw [colLookup_cons_neg _ _ _ hkf] at hf
      rw [colLookup_cons_neg _ _ _ hkf]
      exact ih hf

/-- The effect of addCell on its own column: the cell is appended to the
existing column, or a fresh singleton column is created. -/
theorem colLookup_addCell_self (d : List (String × List (Option JVal))) (f : String)
    (v : Option JVal) :
    colLookup (addCell d f v) f = some ((colLookup d f).getD [] ++ [v]) := by
  unfold addCell
  by_cases hany : d.any (fun p => p.1 == f) = true
  · rw [if_pos hany]
    rw [List.any_eq_true] at hany
    obtain ⟨x, hx, hpx⟩ := hany
    have hsome : (d.find? (fun p => p.1 == f)).isSome := by
      rw [List.find?_isSome]
      exact ⟨x, hx, hpx⟩
    obtain ⟨q, hq⟩ := Option.isSome_iff_exists.mp hsome
    have hcl : colLookup d f = some q.2 := by
      unfold colLookup
      rw [hq]
      rfl
    rw [colLookup_map_upd_self d f v q.2 hcl, hcl]
    rfl
  · rw [if_neg hany]
    have hnone : d.find? (fun p => p.1 == f) = none := by
      rw [List.find?_eq_none]
      intro x hx hpx
      exact hany (List.any_eq_true.mpr ⟨x, hx, hpx⟩)
    have hcl : colLookup d f = none := by
      unfold colLookup
      rw [hnone]
      rfl
    rw [hcl]
    unfold colLookup
    rw [List.find?_append, hnone]
    simp [List.find?]

/-- The effect of addCell on every other column: unchanged. -/
theorem colLookup_addCell_ne (d : List (String × List (Option JVal))) (f g : String)
    (v : Option JVal) (hne : g ≠ f) :
    colLookup (addCell d f v) g = colLookup d g := by
  unfold addCell
  by_cases hany : d.any (fun p => p.1 == f) = true
  · rw [if_pos hany]
    exact colLookup_map_upd_ne d f g v hne
  · rw [if_neg hany]
    have hfg : (f == g) = false := by
      rw [beq_eq_false_iff_ne]
      exact fun hh => hne hh.symm
    unfold colLookup
    rw [List.find?_append]
    cases hd : d.find? (fun p => p.1 == g) with
    | some q => simp
    | none => simp [List.find?_cons, hfg]

/-- A row step never touches the column of a field outside the schema. -/
theorem colLookup_pivotRow_not_mem (fields : List String) (row : Row)
    (d : List (String × List (Option JVal))) (f : String) (hf : f ∉ fields) :
    colLookup (pivotRow d fields row) f = colLookup d f := by
  induction fields generalizing d with
  | nil => rfl
  | cons fl rest ih =>
    rw [pivotRow_cons]
    have hfr : f ∉ rest := fun hh => hf (List.mem_cons_of_mem fl hh)
    have hfl : f ≠ fl := fun hh => hf (hh ▸ List.mem_cons_self fl rest)
    rw [ih _ hfr, colLookup_addCell_ne d fl f (dictGet row fl) hfl]

/-- A row step appends exactly one cell, row.get(f), to the column of
each schema field f (the schema field names being distinct). -/
theorem colLookup_pivotRow_mem (fields : List String) (row : Row)
    (d : List (String × List (Option JVal))) (f : String)
    (hnd : fields.Nodup) (hf : f ∈ fields) :
    colLookup (pivotRow d fields row) f
      = some ((colLookup d f).getD [] ++ [dictGet row f]) := by
  induction fields generalizing d with
  | nil => cases hf
  | cons fl rest ih =>
    rw [pivotRow_cons]
    rcases List.mem_cons.mp hf with heq | hmem
    · subst heq
      have hnin : f ∉ rest := (List.nodup_cons.mp hnd).1
      rw [colLookup_pivotRow_not_mem rest row _ f hnin]
      exact colLookup_addCell_self d f (dictGet row f)
    · have hnd2 : rest.Nodup := (List.nodup_cons.mp hnd).2
      have hne : f ≠ fl := by
        rintro rfl
        exact (List.nodup_cons.mp hnd).1 hmem
      rw [ih _ hnd2 hmem, colLookup_addCell_ne d fl f (dictGet row fl) hne]

/-- Folding the remaining rows extends an existing column cell by cell. -/
theorem colLookup_pivot_aux (rows : List Row) (fields : List String)
    (d : List (String × List (Option JVal))) (f : String) (vs : List (Option JVal))
    (hnd : fields.Nodup) (hf : f ∈ fields) (hd : colLookup d f = some vs) :
    colLookup (rows.foldl (fun acc row => pivotRow acc fields row) d) f
      = some (vs ++ rows.map (fun r => dictGet r f)) := by
  induction rows generalizing d vs with
  | nil => simpa using hd
  | cons r rs ih =>
    rw [List.foldl_cons]
    have h1 : colLookup (pivotRow d fields r) f = some (vs ++ [dictGet r f]) := by
      rw [colLookup_pivotRow_mem fields r d f hnd hf, hd]
      rfl
    rw [ih _ _ h1]
    simp

/-- Serializing the pivoted dict maps each column pointwise, with the
explicit null marker for missing cells. -/
theorem dictGet_serialize (d : List (String × List (Option JVal))) (f : String) :
    dictGet (d.map (fun p => (p.1, JVal.arr (p.2.map optToJVal)))) f
      = (colLookup d f).map (fun l => JVal.arr (l.map optToJVal)) := by
  induction d with
  | nil => rfl
  | cons p t ih =>
    rcases p with ⟨k, vs0⟩
    rw [List.map_cons]
    dsimp only
    by_cases hp : k = f
    · have hkf : (k == f) = true := beq_iff_eq.mpr hp
      rw [dictGet_cons_pos _ _ _ hkf, colLookup_cons_pos _ _ _ hkf]
      rfl
    · have hkf : (k == f) = false := by rw [beq_eq_false_iff_ne]; exact hp
      rw [dictGet_cons_neg _ _ _ hkf, colLookup_cons_neg _ _ _ hkf]
      exact ih

/-- C2 (amended): over distinct schema fields and at least one row, the
pivoted column of each field f is exactly the list of row cells
row.get(f) in row order: it has exactly N entries, a missing cell
contributing the explicit marker at its position, which the JSON
serialization renders as null. -/
theorem C2_pivot_columns (fields : List String) (rows : List Row) (f : String)
    (hnd : fields.Nodup) (hf : f ∈ fields) (hne : rows ≠ []) :
    colLookup (pivot fields rows) f = some (rows.map (fun r => dictGet r f))
    ∧ (rows.map (fun r => dictGet r f)).length = rows.length
    ∧ dictGet ((pivot fields rows).map (fun p => (p.1, JVal.arr (p.2.map optToJVal)))) f
      = some (JVal.arr (rows.map (fun r => optToJVal (dictGet r f)))) := by
  obtain ⟨r0, rs, rfl⟩ := List.exists_cons_of_ne_nil hne
  have hmain : colLookup (pivot fields (r0 :: rs)) f
      = some ((r0 :: rs).map (fun r => dictGet r f)) := by
    unfold pivot
    rw [List.foldl_cons]
    have h1 : colLookup (pivotRow [] fields r0) f = some [dictGet r0 f] := by
      rw [colLookup_pivotRow_mem fields r0 [] f hnd hf]
      rfl
    rw [colLookup_pivot_aux rs fields _ f _ hnd hf h1]
    simp
  refine ⟨hmain, by simp, ?_⟩
  rw [dictGet_serialize, hmain]
  simp

/-- C2 witness: two rows over fields f1 and f2 with a missing f2 cell in
the first row; the f2 column has length two with an explicit marker
first. -/
theorem C2_witness :
    colLookup (pivot ["f1", "f2"] rowsEx) "f2" = some [none, some (JVal.num 3)]
    ∧ dictGet ((pivot ["f1", "f2"] rowsEx).map (fun p => (p.1, JVal.arr (p.2.map optToJVal))))
        "f2" = some (JVal.arr [JVal.null, JVal.num 3]) := by
  have h := C2_pivot_columns ["f1", "f2"] rowsEx "f2" (by simp) (by simp)
    (by unfold rowsEx; exact List.cons_ne_nil _ _)
  refine ⟨?_, ?_⟩
  · rw [h.1]
    rfl
  · rw [h.2.2]
    rfl

/-- C2 counterexample: with zero rows the pivoted dict is empty, so a
schema field is not assigned any column at all, rather than an array of
exactly zero values as the claim states. -/
theorem C2_counterexample :
    colLookup (pivot ["f1"] ([] : List Row)) "f1" = none
    ∧ colLookup (pivot ["f1"] ([] : List Row)) "f1" ≠ some ([] : List (Option JVal)) := by
  refine ⟨rfl, ?_⟩
  intro h
  rw [show colLookup (pivot ["f1"] ([] : List Row)) "f1" = none from rfl] at h
  exact Option.noConfusion h

end ConvApi
